import Mathlib

/-!
Shallow embedding of the worktimer repository: a work-shift countdown
display. The core is the countdown computation of timer.tsx
(targetForDate, formatDiff, progressToTarget, the useCountdown tick,
the Saturday/Sunday day-of-week policy of TimerWITA) and the
configuration boundary of the app wrapper (isValidTimeStr,
parseTimeToCfg, the localStorage load with fallback defaults).

Instants are modelled as a calendar day index plus milliseconds since
local midnight, both integers, mirroring the JavaScript Date value in
the fixed WITA zone (no DST): getTime is the epoch-millisecond view,
getDay is day-of-week with 0 = Sunday (day 0 = 1970-01-01, a Thursday).
Locale-formatted status strings (toLocaleString) are abstracted as an
inductive carrying exactly the data that determines them.
-/

namespace Worktimer

/-- The TimeCfg record of the source: configured hours, minutes and a
display label. Fields are integers as in JavaScript; the configuration
layer clamps them into range. -/
structure TimeCfg where
  hours : ℤ
  minutes : ℤ
  label : String
deriving DecidableEq

/-- A wall-clock instant in the fixed WITA zone: calendar day index
(days since 1970-01-01) and milliseconds since local midnight. -/
structure Instant where
  day : ℤ
  msOfDay : ℤ
deriving DecidableEq

/-- Epoch milliseconds of an instant, the Date.getTime view. -/
def Instant.getTime (i : Instant) : ℤ :=
  i.day * 86400000 + i.msOfDay

/-- Day of week as JavaScript Date.getDay: 0 = Sunday .. 6 = Saturday.
Day index 0 is 1970-01-01, a Thursday (getDay 4). -/
def jsGetDay (i : Instant) : ℤ :=
  (i.day + 4) % 7

/-- Hours in 0..23 and minutes in 0..59: the range of the TimeOfDay
data model, guaranteed by the configuration layer. -/
def validCfg (c : TimeCfg) : Prop :=
  0 ≤ c.hours ∧ c.hours ≤ 23 ∧ 0 ≤ c.minutes ∧ c.minutes ≤ 59

instance (c : TimeCfg) : Decidable (validCfg c) := by
  unfold validCfg; infer_instance

/-- The millisecond-of-day field is in range [0, 86400000). -/
def validInstant (i : Instant) : Prop :=
  0 ≤ i.msOfDay ∧ i.msOfDay < 86400000

instance (i : Instant) : Decidable (validInstant i) := by
  unfold validInstant; infer_instance

/-- targetForDate of the source: copy the base date and setHours to
hours:minutes:00.000. For in-range hours and minutes (the only call
sites, after clamping) setHours does not roll the date over. -/
def targetForDate (hours minutes : ℤ) (baseDate : Instant) : Instant :=
  { day := baseDate.day, msOfDay := hours * 3600000 + minutes * 60000 }

/-- String.padStart(2, "0") of the source applied to a rendered value. -/
def padStart2 (s : String) : String :=
  if 2 ≤ s.length then s
  else String.mk (List.replicate (2 - s.length) '0') ++ s

/-- A component rendered as a zero-padded two-digit decimal field. -/
def pad2 (n : ℕ) : String :=
  padStart2 (toString n)

/-- Result record of formatDiff: the HH:MM:SS text and the whole-day
count split off first. -/
structure DiffResult where
  text : String
  days : ℕ
deriving DecidableEq

/-- The non-negative-seconds part of formatDiff: repeated floor
division and remainder exactly as in the source (days, then hours,
minutes, seconds). -/
def formatDiffN (total : ℕ) : DiffResult :=
  let days := total / 86400
  let t1 := total % 86400
  let h := t1 / 3600
  let t2 := t1 % 3600
  let m := t2 / 60
  let s := t2 % 60
  { text := pad2 h ++ ":" ++ pad2 m ++ ":" ++ pad2 s, days := days }

/-- formatDiff of the source: total = Math.max(0, Math.floor(ms/1000)),
then the day/hour/minute/second split of formatDiffN. Math.floor of the
millisecond quotient is Int.fdiv. -/
def formatDiff (ms : ℤ) : DiffResult :=
  formatDiffN (max 0 (Int.fdiv ms 1000)).toNat

/-- dayStart of progressToTarget: 08:00:00.000 on the current date, or
on the target date when the two calendar dates differ (the
toDateString comparison of the source). The start hour is the
hardcoded default parameter startHour = 8. -/
def dayStartFor (target now : Instant) : Instant :=
  if target.day = now.day then { day := now.day, msOfDay := 8 * 3600000 }
  else { day := target.day, msOfDay := 8 * 3600000 }

/-- span of progressToTarget: target minus dayStart in milliseconds. -/
def spanOf (target now : Instant) : ℤ :=
  target.getTime - (dayStartFor target now).getTime

/-- The divisor actually used by progressToTarget: the source guards
the division as (span || 1), which substitutes 1 exactly when span is
0 and otherwise divides by span itself, negative spans included. -/
def progressDivisor (target now : Instant) : ℤ :=
  if spanOf target now = 0 then 1 else spanOf target now

/-- done of progressToTarget: Math.max(0, Math.min(target - now, span)). -/
def doneOf (target now : Instant) : ℤ :=
  max 0 (min (target.getTime - now.getTime) (spanOf target now))

/-- progressToTarget of the source: the clamped percentage
Math.max(0, Math.min(100, 100 * (span - done) / (span || 1))). Over the
rationals the result of the division is always defined and finite, so
the final Number.isFinite guard of the source is the identity here. -/
def progressToTarget (target now : Instant) : ℚ :=
  max 0 (min 100 ((100 * (((spanOf target now : ℚ)) - ((doneOf target now : ℚ)))) /
    ((progressDivisor target now : ℚ))))

/-- Abstraction of the status string of a countdown state: the
completed message is a locale-fixed function of the label, the pending
message a locale-formatted function of the target instant. -/
inductive StatusView where
  | completedMsg (label : String) : StatusView
  | targetToday (target : Instant) : StatusView
deriving DecidableEq

/-- CountdownState of the source, the per-tick snapshot. -/
structure CountdownState where
  nowWita : Instant
  targetToday : Instant
  diffText : String
  status : StatusView
  progress : ℚ
  isCompleted : Bool
deriving DecidableEq

/-- The tick body of useCountdown: sample now, build today from the
configured hours and minutes, then either the completed snapshot
(fixed text 00:00:00, progress 100) or the counting snapshot
(formatted difference, progressToTarget). -/
def tick (cfg : TimeCfg) (now : Instant) : CountdownState :=
  let today := targetForDate cfg.hours cfg.minutes now
  let isCompleted : Bool := decide (today.getTime ≤ now.getTime)
  if isCompleted then
    { nowWita := now, targetToday := today, diffText := "00:00:00",
      status := StatusView.completedMsg cfg.label, progress := 100,
      isCompleted := true }
  else
    { nowWita := now, targetToday := today,
      diffText := (formatDiff (today.getTime - now.getTime)).text,
      status := StatusView.targetToday today,
      progress := progressToTarget today now,
      isCompleted := false }

/-- One invocation of tick as a state transition: the source calls
setState with a freshly built snapshot and never reads the previous
state, so the previous snapshot is ignored. -/
def step (cfg : TimeCfg) (now : Instant) (_prev : CountdownState) : CountdownState :=
  tick cfg now

/-- The anchor of the progress computation as the spec names it:
08:00:00 on the target calendar date. -/
def anchorOf (target : Instant) : Instant :=
  { day := target.day, msOfDay := 8 * 3600000 }

/-- effectiveHome of TimerWITA: on Saturday the home schedule is
overridden to 14:00 and its label gets the Saturday qualifier
" (Sabtu)" appended; on other days it is returned unchanged. -/
def effectiveHome (homeAt : TimeCfg) (now : Instant) : TimeCfg :=
  if jsGetDay now = 6 then
    { homeAt with hours := 14, minutes := 0, label := homeAt.label ++ " (Sabtu)" }
  else homeAt

/-- The pair of schedules TimerWITA hands to its two countdown hooks:
the rest schedule unmodified and the effective home schedule. -/
def timerSchedules (restAt homeAt : TimeCfg) (now : Instant) : TimeCfg × TimeCfg :=
  (restAt, effectiveHome homeAt now)

/-- What TimerWITA renders: on Sunday two holiday cards carrying no
countdown data at all, otherwise the two countdown cards. -/
inductive TimerView where
  | holiday : TimerView
  | cards (rest home : CountdownState) : TimerView
deriving DecidableEq

/-- The fixed text shown by a HolidayCard in place of a countdown. -/
def holidayCardText : String := "00:00:00"

/-- The render decision of TimerWITA: isSunday selects the two
HolidayCards, otherwise the rest card and the effective-home card. -/
def renderTimer (restAt homeAt : TimeCfg) (now : Instant) : TimerView :=
  if jsGetDay now = 0 then TimerView.holiday
  else TimerView.cards (tick restAt now) (tick (effectiveHome homeAt now) now)

/-- The persisted configuration record: two HH:MM strings. -/
structure UserCfg where
  rest : String
  home : String
deriving DecidableEq

/-- isValidTimeStr of the source: the test of the regular expression
matching exactly two digits, a colon, and two digits. -/
def isValidTimeStr (t : String) : Bool :=
  match t.data with
  | [a, b, c, d, e] => a.isDigit && b.isDigit && c = ':' && d.isDigit && e.isDigit
  | _ => false

/-- Leading decimal digits of a character list. -/
def leadingDigits : List Char → List Char
  | [] => []
  | c :: cs => if c.isDigit then c :: leadingDigits cs else []

/-- Value of a digit list read as a decimal number. -/
def digitsVal (l : List Char) : ℤ :=
  l.foldl (fun acc c => 10 * acc + ((c.toNat : ℤ) - 48)) 0

/-- JavaScript parseInt with radix 10: skip leading whitespace, an
optional sign, then the leading run of digits; none models NaN (no
digits found, or a missing argument at the call site). Trailing
non-digit characters are ignored. -/
def jsParseInt (s : String) : Option ℤ :=
  let cs := s.data.dropWhile Char.isWhitespace
  let signAndRest : ℤ × List Char :=
    match cs with
    | '-' :: r => (-1, r)
    | '+' :: r => (1, r)
    | r => (1, r)
  let ds := leadingDigits signAndRest.2
  if ds = [] then none else some (signAndRest.1 * digitsVal ds)

/-- Split a character list at every occurrence of the separator, the
JavaScript String.split behaviour on a one-character separator: the
empty string yields one empty field, and separators at the ends yield
empty fields. -/
def splitOnChar (sep : Char) : List Char → List (List Char)
  | [] => [[]]
  | c :: cs =>
    let r := splitOnChar sep cs
    if c = sep then [] :: r
    else
      match r with
      | [] => [[c]]
      | x :: xs => (c :: x) :: xs

/-- The split of t.split of the source on the colon separator. -/
def jsSplitColon (s : String) : List String :=
  (splitOnChar ':' s.data).map String.mk

/-- The clamp applied to each parsed field: Number.isFinite picks the
parsed value clamped between 0 and the bound, and NaN falls back to 0. -/
def clampParsed (bound : ℤ) : Option ℤ → ℤ
  | some v => min bound (max 0 v)
  | none => 0

/-- parseTimeToCfg of the source: split on the colon, parseInt both
fields with radix 10, and clamp — Math.min(23, Math.max(0, h)) when
the parse is finite and 0 otherwise, likewise minutes against 59. A
missing second field parses as NaN. -/
def parseTimeToCfg (t lab : String) : TimeCfg :=
  { hours := clampParsed 23 (jsParseInt ((jsSplitColon t).getD 0 ""))
    minutes := clampParsed 59 (((jsSplitColon t).get? 1).bind jsParseInt)
    label := lab }

/-- The three outcomes of reading the persisted configuration: no key
stored, JSON.parse threw, or a parsed record with two field values. -/
inductive StorageRead where
  | missing : StorageRead
  | corrupt : StorageRead
  | stored (rest home : String) : StorageRead
deriving DecidableEq

/-- The load effect of the app wrapper on mount, as (resulting user
configuration, whether the edit modal is opened). A missing key keeps
the initial defaults and opens the modal; a parse failure resets to
the defaults and opens the modal; a stored record is validated field
by field against isValidTimeStr with fallback to the matching default,
and the modal stays closed. -/
def loadUserCfg : StorageRead → UserCfg × Bool
  | StorageRead.missing => ({ rest := "11:30", home := "16:00" }, true)
  | StorageRead.corrupt => ({ rest := "11:30", home := "16:00" }, true)
  | StorageRead.stored r h =>
      ({ rest := if isValidTimeStr r then r else "11:30",
         home := if isValidTimeStr h then h else "16:00" }, false)

/-- The modal save guard: handleSave rejects (returns without saving)
unless both fields match isValidTimeStr. -/
def modalSave (r h : String) : Option UserCfg :=
  if isValidTimeStr r && isValidTimeStr h then some { rest := r, home := h }
  else none

/-- The conversion of the two user configuration strings into the two
TimeCfg values handed to TimerWITA. -/
def appSchedules (cfg : UserCfg) : TimeCfg × TimeCfg :=
  (parseTimeToCfg cfg.rest "Waktunya istirahat",
   parseTimeToCfg cfg.home "Waktunya pulang")

/-! Helper lemmas shared by the claim theorems. -/

/-- A component below 100 always renders as exactly two characters. -/
theorem pad2_two_digits : ∀ n : ℕ, n < 100 → (pad2 n).length = 2 := by decide

/-- The split performed by formatDiffN, with the range of each field. -/
theorem formatDiffN_shape (n : ℕ) :
    ∃ hh mm ss : ℕ, hh ≤ 23 ∧ mm ≤ 59 ∧ ss ≤ 59 ∧
      formatDiffN n =
        { text := pad2 hh ++ ":" ++ pad2 mm ++ ":" ++ pad2 ss, days := n / 86400 } := by
  refine ⟨n % 86400 / 3600, n % 86400 % 3600 / 60, n % 86400 % 3600 % 60,
    ?_, ?_, ?_, rfl⟩ <;> omega

/-- An HH:MM:SS text from in-range fields is eight characters long. -/
theorem diffText_length (hh mm ss : ℕ) (h1 : hh ≤ 23) (h2 : mm ≤ 59) (h3 : ss ≤ 59) :
    (pad2 hh ++ ":" ++ pad2 mm ++ ":" ++ pad2 ss).length = 8 := by
  have l1 := pad2_two_digits hh (by omega)
  have l2 := pad2_two_digits mm (by omega)
  have l3 := pad2_two_digits ss (by omega)
  simp [String.length_append, l1, l2, l3]
  decide

/-- Every formatDiff result is a zero-padded HH:MM:SS text with hours
at most 23 and minutes and seconds at most 59. -/
theorem formatDiff_shape (ms : ℤ) :
    ∃ hh mm ss : ℕ, hh ≤ 23 ∧ mm ≤ 59 ∧ ss ≤ 59 ∧
      (formatDiff ms).text = pad2 hh ++ ":" ++ pad2 mm ++ ":" ++ pad2 ss ∧
      (formatDiff ms).text.length = 8 := by
  obtain ⟨hh, mm, ss, h1, h2, h3, he⟩ :=
    formatDiffN_shape (max 0 (Int.fdiv ms 1000)).toNat
  refine ⟨hh, mm, ss, h1, h2, h3, ?_, ?_⟩
  · rw [formatDiff, he]
  · rw [formatDiff, he]
    exact diffText_length hh mm ss h1 h2 h3

/-- A non-positive millisecond difference formats as the zero display. -/
theorem formatDiff_nonpos (ms : ℤ) (h : ms ≤ 0) :
    formatDiff ms = { text := "00:00:00", days := 0 } := by
  have h1 : Int.fdiv ms 1000 ≤ 0 := by
    rw [Int.fdiv_eq_ediv ms (by norm_num)]
    omega
  have h2 : (max 0 (Int.fdiv ms 1000)).toNat = 0 := by omega
  rw [formatDiff, h2]
  decide

/-- The completed branch of tick as an explicit snapshot. -/
theorem tick_completed_eq (cfg : TimeCfg) (now : Instant)
    (h : (targetForDate cfg.hours cfg.minutes now).getTime ≤ now.getTime) :
    tick cfg now =
      { nowWita := now, targetToday := targetForDate cfg.hours cfg.minutes now,
        diffText := "00:00:00", status := StatusView.completedMsg cfg.label,
        progress := 100, isCompleted := true } := by
  simp [tick, h]

/-- The pending branch of tick as an explicit snapshot. -/
theorem tick_pending_eq (cfg : TimeCfg) (now : Instant)
    (h : now.getTime < (targetForDate cfg.hours cfg.minutes now).getTime) :
    tick cfg now =
      { nowWita := now, targetToday := targetForDate cfg.hours cfg.minutes now,
        diffText :=
          (formatDiff ((targetForDate cfg.hours cfg.minutes now).getTime - now.getTime)).text,
        status := StatusView.targetToday (targetForDate cfg.hours cfg.minutes now),
        progress := progressToTarget (targetForDate cfg.hours cfg.minutes now) now,
        isCompleted := false } := by
  simp [tick, not_le.mpr h]

/-- The clamp keeps every progress value inside [0, 100]. -/
theorem progressToTarget_bounds (target now : Instant) :
    0 ≤ progressToTarget target now ∧ progressToTarget target now ≤ 100 := by
  unfold progressToTarget
  exact ⟨le_max_left _ _, max_le (by norm_num) (min_le_left _ _)⟩

/-- When the anchor-to-target span is exactly zero the computed
progress is zero: done collapses to zero and the guarded divisor is 1. -/
theorem progress_of_span_zero (target now : Instant) (h : spanOf target now = 0) :
    progressToTarget target now = 0 := by
  have hdone : doneOf target now = 0 := by
    unfold doneOf
    rw [h]
    omega
  unfold progressToTarget progressDivisor
  rw [h, hdone]
  norm_num

/-- Before the anchor (and with the target not before the anchor), the
computed progress is zero. -/
theorem progress_of_early (target now : Instant) (hday : target.day = now.day)
    (ha : now.getTime ≤ (anchorOf target).getTime)
    (hb : (anchorOf target).getTime ≤ target.getTime) :
    progressToTarget target now = 0 := by
  have hds : dayStartFor target now = anchorOf target := by
    unfold dayStartFor anchorOf
    rw [if_pos hday, hday]
  have hspan : spanOf target now = target.getTime - (anchorOf target).getTime := by
    unfold spanOf
    rw [hds]
  rcases eq_or_lt_of_le (show (0:ℤ) ≤ spanOf target now by omega) with hz | hp
  · exact progress_of_span_zero target now hz.symm
  · have hp2 : 0 < target.getTime - (anchorOf target).getTime := hspan ▸ hp
    have hdone : doneOf target now = spanOf target now := by
      unfold doneOf
      rw [hspan]
      omega
    unfold progressToTarget
    have h1 : ((spanOf target now : ℚ)) - ((doneOf target now : ℚ)) = 0 := by
      rw [hdone]
      ring
    rw [h1, mul_zero, zero_div]
    rw [min_eq_right (by norm_num : (0:ℚ) ≤ 100), max_eq_right le_rfl]

/-! The claim theorems. -/

/-- Claim C1: for every valid TimeOfDay and every instant, the tick
snapshot is completed exactly when now has reached the target built
from the current calendar date and the configured hours and minutes
with seconds zeroed; the displayed remaining text is the formatting of
max(0, target - now); and the display is the zero text 00:00:00
whenever completed. -/
theorem c1_countdown_core (cfg : TimeCfg) (now : Instant)
    (hc : validCfg cfg) (hn : validInstant now) :
    ((tick cfg now).isCompleted = true ↔
      (targetForDate cfg.hours cfg.minutes now).getTime ≤ now.getTime)
    ∧ (tick cfg now).diffText =
        (formatDiff (max 0
          ((targetForDate cfg.hours cfg.minutes now).getTime - now.getTime))).text
    ∧ ((tick cfg now).isCompleted = true → (tick cfg now).diffText = "00:00:00")
    ∧ (targetForDate cfg.hours cfg.minutes now).day = now.day
    ∧ (targetForDate cfg.hours cfg.minutes now).msOfDay =
        cfg.hours * 3600000 + cfg.minutes * 60000 := by
  by_cases h : (targetForDate cfg.hours cfg.minutes now).getTime ≤ now.getTime
  · rw [tick_completed_eq cfg now h]
    have hz : max 0 ((targetForDate cfg.hours cfg.minutes now).getTime - now.getTime) ≤ 0 := by
      omega
    rw [formatDiff_nonpos _ hz]
    exact ⟨by simp [h], rfl, fun _ => rfl, rfl, rfl⟩
  · push_neg at h
    rw [tick_pending_eq cfg now h]
    have hz : max 0 ((targetForDate cfg.hours cfg.minutes now).getTime - now.getTime)
        = (targetForDate cfg.hours cfg.minutes now).getTime - now.getTime := by
      omega
    rw [hz]
    refine ⟨by simp [not_le.mpr h], rfl, fun hfalse => by simp at hfalse, rfl, rfl⟩

/-- Claim C1 witness: the spec example with the 16:00 target and now
at 15:59:59 on the same day. -/
theorem c1_countdown_core_witness :
    validCfg ⟨16, 0, "Waktunya pulang"⟩ ∧ validInstant ⟨0, 57599000⟩ ∧
    (((tick ⟨16, 0, "Waktunya pulang"⟩ ⟨0, 57599000⟩).isCompleted = true ↔
      (targetForDate 16 0 ⟨0, 57599000⟩).getTime ≤ (Instant.mk 0 57599000).getTime)
    ∧ (tick ⟨16, 0, "Waktunya pulang"⟩ ⟨0, 57599000⟩).diffText =
        (formatDiff (max 0
          ((targetForDate 16 0 ⟨0, 57599000⟩).getTime - (Instant.mk 0 57599000).getTime))).text
    ∧ ((tick ⟨16, 0, "Waktunya pulang"⟩ ⟨0, 57599000⟩).isCompleted = true →
        (tick ⟨16, 0, "Waktunya pulang"⟩ ⟨0, 57599000⟩).diffText = "00:00:00")
    ∧ (targetForDate 16 0 ⟨0, 57599000⟩).day = (Instant.mk 0 57599000).day
    ∧ (targetForDate 16 0 ⟨0, 57599000⟩).msOfDay = 16 * 3600000 + 0 * 60000) :=
  ⟨by decide, by decide,
    c1_countdown_core ⟨16, 0, "Waktunya pulang"⟩ ⟨0, 57599000⟩ (by decide) (by decide)⟩

/-- Claim C2 counterexample: with the valid TimeOfDay 07:00 and now at
06:00 (before the 08:00 anchor) on the same day, the evaluation is not
completed and the computed progress is 100, not 0: the span is
negative, done clamps to 0, and 100 * span / span = 100. -/
theorem c2_progress_counterexample :
    validCfg ⟨7, 0, "Waktunya istirahat"⟩
    ∧ (Instant.mk 5 21600000).getTime ≤
        (anchorOf (targetForDate 7 0 ⟨5, 21600000⟩)).getTime
    ∧ (tick ⟨7, 0, "Waktunya istirahat"⟩ ⟨5, 21600000⟩).isCompleted = false
    ∧ (tick ⟨7, 0, "Waktunya istirahat"⟩ ⟨5, 21600000⟩).progress = 100 := by
  refine ⟨by decide, by decide, by decide, ?_⟩
  have h : (Instant.mk 5 21600000).getTime <
      (targetForDate (⟨7, 0, "Waktunya istirahat"⟩ : TimeCfg).hours
        (⟨7, 0, "Waktunya istirahat"⟩ : TimeCfg).minutes ⟨5, 21600000⟩).getTime := by decide
  rw [tick_pending_eq ⟨7, 0, "Waktunya istirahat"⟩ ⟨5, 21600000⟩ h]
  show progressToTarget (targetForDate 7 0 ⟨5, 21600000⟩) ⟨5, 21600000⟩ = 100
  have hs : spanOf (targetForDate 7 0 ⟨5, 21600000⟩) ⟨5, 21600000⟩ = -3600000 := by decide
  have hd : doneOf (targetForDate 7 0 ⟨5, 21600000⟩) ⟨5, 21600000⟩ = 0 := by decide
  have hdiv : progressDivisor (targetForDate 7 0 ⟨5, 21600000⟩) ⟨5, 21600000⟩
      = -3600000 := by decide
  unfold progressToTarget
  rw [hs, hd, hdiv]
  norm_num

/-- Claim C2 as amended: progress always lies in [0, 100] and equals
100 whenever completed; it equals 0 whenever now is at or before the
08:00 anchor, provided the target does not precede the anchor and the
evaluation is not completed (when the configured time is before 08:00
the code instead reports 100 before the target, and at the degenerate
point now = anchor = target the completed branch forces 100). -/
theorem c2_progress_amended (cfg : TimeCfg) (now : Instant) (hc : validCfg cfg) :
    (0 ≤ (tick cfg now).progress ∧ (tick cfg now).progress ≤ 100)
    ∧ ((tick cfg now).isCompleted = true → (tick cfg now).progress = 100)
    ∧ (now.getTime ≤ (anchorOf (targetForDate cfg.hours cfg.minutes now)).getTime →
        (anchorOf (targetForDate cfg.hours cfg.minutes now)).getTime ≤
          (targetForDate cfg.hours cfg.minutes now).getTime →
        (tick cfg now).isCompleted = false →
        (tick cfg now).progress = 0) := by
  by_cases h : (targetForDate cfg.hours cfg.minutes now).getTime ≤ now.getTime
  · rw [tick_completed_eq cfg now h]
    exact ⟨⟨by norm_num, by norm_num⟩, fun _ => rfl, fun _ _ hfalse => by simp at hfalse⟩
  · push_neg at h
    rw [tick_pending_eq cfg now h]
    refine ⟨progressToTarget_bounds _ _, fun hcomp => by simp at hcomp, fun ha hb _ => ?_⟩
    exact progress_of_early _ _ rfl ha hb

/-- Claim C2 witness: the 11:30 rest target evaluated at 10:00. -/
theorem c2_progress_amended_witness :
    validCfg ⟨11, 30, "Waktunya istirahat"⟩ ∧
    ((0 ≤ (tick ⟨11, 30, "Waktunya istirahat"⟩ ⟨0, 36000000⟩).progress ∧
        (tick ⟨11, 30, "Waktunya istirahat"⟩ ⟨0, 36000000⟩).progress ≤ 100)
    ∧ ((tick ⟨11, 30, "Waktunya istirahat"⟩ ⟨0, 36000000⟩).isCompleted = true →
        (tick ⟨11, 30, "Waktunya istirahat"⟩ ⟨0, 36000000⟩).progress = 100)
    ∧ ((Instant.mk 0 36000000).getTime ≤
          (anchorOf (targetForDate 11 30 ⟨0, 36000000⟩)).getTime →
        (anchorOf (targetForDate 11 30 ⟨0, 36000000⟩)).getTime ≤
          (targetForDate 11 30 ⟨0, 36000000⟩).getTime →
        (tick ⟨11, 30, "Waktunya istirahat"⟩ ⟨0, 36000000⟩).isCompleted = false →
        (tick ⟨11, 30, "Waktunya istirahat"⟩ ⟨0, 36000000⟩).progress = 0)) :=
  ⟨by decide, c2_progress_amended ⟨11, 30, "Waktunya istirahat"⟩ ⟨0, 36000000⟩ (by decide)⟩

/-- Claim C3: on a Saturday instant the effective home schedule is
forced to 14:00 regardless of the configured hours and minutes, so its
target for the day is 14:00:00 of that date; the home label gets the
Saturday qualifier (the string " (Sabtu)") appended; and the rest
schedule handed to its countdown hook is the configured one,
untouched by the override. -/
theorem c3_saturday_override (restAt homeAt : TimeCfg) (now : Instant)
    (hsat : jsGetDay now = 6) :
    (effectiveHome homeAt now).hours = 14
    ∧ (effectiveHome homeAt now).minutes = 0
    ∧ targetForDate (effectiveHome homeAt now).hours (effectiveHome homeAt now).minutes now
        = ⟨now.day, 50400000⟩
    ∧ (effectiveHome homeAt now).label = homeAt.label ++ " (Sabtu)"
    ∧ (timerSchedules restAt homeAt now).1 = restAt := by
  unfold effectiveHome timerSchedules
  rw [if_pos hsat]
  refine ⟨rfl, rfl, ?_, rfl, rfl⟩
  unfold targetForDate
  norm_num

/-- Claim C3 witness: a Saturday morning (day index 2 is 1970-01-03, a
Saturday) with the default 16:00 home configuration. -/
theorem c3_saturday_override_witness :
    jsGetDay ⟨2, 32400000⟩ = 6 ∧
    ((effectiveHome ⟨16, 0, "Waktunya pulang"⟩ ⟨2, 32400000⟩).hours = 14
    ∧ (effectiveHome ⟨16, 0, "Waktunya pulang"⟩ ⟨2, 32400000⟩).minutes = 0
    ∧ targetForDate (effectiveHome ⟨16, 0, "Waktunya pulang"⟩ ⟨2, 32400000⟩).hours
        (effectiveHome ⟨16, 0, "Waktunya pulang"⟩ ⟨2, 32400000⟩).minutes ⟨2, 32400000⟩
        = ⟨(Instant.mk 2 32400000).day, 50400000⟩
    ∧ (effectiveHome ⟨16, 0, "Waktunya pulang"⟩ ⟨2, 32400000⟩).label =
        (TimeCfg.mk 16 0 "Waktunya pulang").label ++ " (Sabtu)"
    ∧ (timerSchedules ⟨11, 30, "Waktunya istirahat"⟩ ⟨16, 0, "Waktunya pulang"⟩
        ⟨2, 32400000⟩).1 = ⟨11, 30, "Waktunya istirahat"⟩) :=
  ⟨by decide,
    c3_saturday_override ⟨11, 30, "Waktunya istirahat"⟩ ⟨16, 0, "Waktunya pulang"⟩
      ⟨2, 32400000⟩ (by decide)⟩

/-- Claim C4: on a Sunday instant TimerWITA renders the holiday view
for both schedules, whatever the configured pair of TimeOfDay values:
the view carries no target and no countdown data at all, and the only
countdown text a holiday card shows is the fixed zero display
00:00:00. -/
theorem c4_sunday_holiday (restAt homeAt : TimeCfg) (now : Instant)
    (hsun : jsGetDay now = 0) :
    renderTimer restAt homeAt now = TimerView.holiday
    ∧ (∀ r2 h2 : TimeCfg, renderTimer r2 h2 now = TimerView.holiday)
    ∧ holidayCardText = "00:00:00" := by
  unfold renderTimer
  rw [if_pos hsun]
  exact ⟨rfl, fun r2 h2 => by rw [if_pos hsun], rfl⟩

/-- Claim C4 witness: day index 3 is 1970-01-04, a Sunday. -/
theorem c4_sunday_holiday_witness :
    jsGetDay ⟨3, 39600000⟩ = 0 ∧
    (renderTimer ⟨11, 30, "Waktunya istirahat"⟩ ⟨16, 0, "Waktunya pulang"⟩ ⟨3, 39600000⟩
        = TimerView.holiday
    ∧ (∀ r2 h2 : TimeCfg, renderTimer r2 h2 ⟨3, 39600000⟩ = TimerView.holiday)
    ∧ holidayCardText = "00:00:00") :=
  ⟨by decide,
    c4_sunday_holiday ⟨11, 30, "Waktunya istirahat"⟩ ⟨16, 0, "Waktunya pulang"⟩
      ⟨3, 39600000⟩ (by decide)⟩

/-- Claim C5: for a non-completed evaluation (now strictly before the
same-day target) the displayed remaining text is a zero-padded
HH:MM:SS string, eight characters long, whose hours field is in 0..23
and whose minutes and seconds fields are in 0..59. -/
theorem c5_format_same_day (cfg : TimeCfg) (now : Instant)
    (hc : validCfg cfg) (hn : validInstant now)
    (hlt : now.getTime < (targetForDate cfg.hours cfg.minutes now).getTime) :
    ∃ hh mm ss : ℕ, hh ≤ 23 ∧ mm ≤ 59 ∧ ss ≤ 59 ∧
      (tick cfg now).diffText = pad2 hh ++ ":" ++ pad2 mm ++ ":" ++ pad2 ss ∧
      (tick cfg now).diffText.length = 8 := by
  rw [tick_pending_eq cfg now hlt]
  exact formatDiff_shape ((targetForDate cfg.hours cfg.minutes now).getTime - now.getTime)

/-- Claim C5 witness: the 11:30 target evaluated at 09:15:30. -/
theorem c5_format_same_day_witness :
    validCfg ⟨11, 30, "Waktunya istirahat"⟩ ∧ validInstant ⟨0, 33330000⟩ ∧
    (Instant.mk 0 33330000).getTime < (targetForDate 11 30 ⟨0, 33330000⟩).getTime ∧
    (∃ hh mm ss : ℕ, hh ≤ 23 ∧ mm ≤ 59 ∧ ss ≤ 59 ∧
      (tick ⟨11, 30, "Waktunya istirahat"⟩ ⟨0, 33330000⟩).diffText =
        pad2 hh ++ ":" ++ pad2 mm ++ ":" ++ pad2 ss ∧
      (tick ⟨11, 30, "Waktunya istirahat"⟩ ⟨0, 33330000⟩).diffText.length = 8) :=
  ⟨by decide, by decide, by decide,
    c5_format_same_day ⟨11, 30, "Waktunya istirahat"⟩ ⟨0, 33330000⟩
      (by decide) (by decide) (by decide)⟩

/-- Claim C6 counterexample: with the 07:00 target and now at 06:00 of
the same day the anchor-to-target span is negative, and the divisor
the code uses is the span itself (-3600000 milliseconds), not the
substituted 1: the (span or 1) guard replaces only an exact zero. -/
theorem c6_divisor_counterexample :
    spanOf (targetForDate 7 0 ⟨0, 21600000⟩) ⟨0, 21600000⟩ ≤ 0
    ∧ progressDivisor (targetForDate 7 0 ⟨0, 21600000⟩) ⟨0, 21600000⟩ ≠ 1
    ∧ progressDivisor (targetForDate 7 0 ⟨0, 21600000⟩) ⟨0, 21600000⟩ = -3600000 := by
  refine ⟨by decide, by decide, by decide⟩

/-- Claim C6 as amended: the progress computation never divides by
zero — the divisor is never 0, with 1 substituted exactly when the
anchor-to-target span is 0 (a negative span is used unchanged, and is
itself nonzero); progress is 0 when the span is exactly zero; and the
result is a well-defined rational clamped into [0, 100], hence always
finite. -/
theorem c6_divisor_amended (target now : Instant) :
    progressDivisor target now ≠ 0
    ∧ (spanOf target now = 0 → progressDivisor target now = 1)
    ∧ (spanOf target now = 0 → progressToTarget target now = 0)
    ∧ (0 ≤ progressToTarget target now ∧ progressToTarget target now ≤ 100) := by
  refine ⟨?_, fun h => by rw [progressDivisor, if_pos h], fun h => progress_of_span_zero target now h,
    progressToTarget_bounds target now⟩
  unfold progressDivisor
  split
  · norm_num
  · next h => exact h

/-- The clamp really lands in [0, bound] for a non-negative bound. -/
theorem clampParsed_bounds (bound : ℤ) (hb : 0 ≤ bound) (o : Option ℤ) :
    0 ≤ clampParsed bound o ∧ clampParsed bound o ≤ bound := by
  cases o <;> simp [clampParsed] <;> omega

/-- Whatever string reaches it, parseTimeToCfg clamps both fields
into range: hours into [0, 23] and minutes into [0, 59]. -/
theorem parseTimeToCfg_bounds (t lab : String) :
    0 ≤ (parseTimeToCfg t lab).hours ∧ (parseTimeToCfg t lab).hours ≤ 23
    ∧ 0 ≤ (parseTimeToCfg t lab).minutes ∧ (parseTimeToCfg t lab).minutes ≤ 59 := by
  have h1 := clampParsed_bounds 23 (by norm_num) (jsParseInt ((jsSplitColon t).getD 0 ""))
  have h2 := clampParsed_bounds 59 (by norm_num) (((jsSplitColon t).get? 1).bind jsParseInt)
  exact ⟨h1.1, h1.2, h2.1, h2.2⟩

/-- After the load, both configuration strings satisfy the HH:MM
validation: a stored value only survives if it is valid, and the
defaults are valid. -/
theorem loadUserCfg_valid (read : StorageRead) :
    isValidTimeStr (loadUserCfg read).1.rest = true
    ∧ isValidTimeStr (loadUserCfg read).1.home = true := by
  cases read with
  | missing => exact ⟨by decide, by decide⟩
  | corrupt => exact ⟨by decide, by decide⟩
  | stored r h =>
    constructor
    · show isValidTimeStr (if isValidTimeStr r = true then r else "11:30") = true
      by_cases hr : isValidTimeStr r = true
      · rw [if_pos hr]; exact hr
      · rw [if_neg hr]; decide
    · show isValidTimeStr (if isValidTimeStr h = true then h else "16:00") = true
      by_cases hh : isValidTimeStr h = true
      · rw [if_pos hh]; exact hh
      · rw [if_neg hh]; decide

/-- Claim C7: configuration strings that fail the two-digit HH:MM
pattern are rejected at the boundary — after the load both stored
strings satisfy the pattern, and the modal save refuses any pair with
an invalid member — and every TimeCfg actually handed to the core is
in range, because parseTimeToCfg clamps even numerically out-of-range
pattern matches such as 99:99 (which becomes 23:59). -/
theorem c7_config_boundary :
    (∀ t lab : String,
      0 ≤ (parseTimeToCfg t lab).hours ∧ (parseTimeToCfg t lab).hours ≤ 23
      ∧ 0 ≤ (parseTimeToCfg t lab).minutes ∧ (parseTimeToCfg t lab).minutes ≤ 59)
    ∧ (∀ read : StorageRead,
        isValidTimeStr (loadUserCfg read).1.rest = true
        ∧ isValidTimeStr (loadUserCfg read).1.home = true)
    ∧ (∀ r h : String, (isValidTimeStr r = false ∨ isValidTimeStr h = false) →
        modalSave r h = none)
    ∧ isValidTimeStr "99:99" = true
    ∧ (parseTimeToCfg "99:99" "Waktunya pulang").hours = 23
    ∧ (parseTimeToCfg "99:99" "Waktunya pulang").minutes = 59 := by
  refine ⟨parseTimeToCfg_bounds, loadUserCfg_valid, ?_, by decide, by decide, by decide⟩
  intro r h hrh
  rcases hrh with h1 | h1 <;> simp [modalSave, h1]

/-- Claim C8 counterexample: a stored record whose rest field does not
match HH:MM is replaced by the default, but the modal flag stays
false — the user is not asked to re-enter, contradicting the claim
that every invalid stored field surfaces a re-entry request. -/
theorem c8_modal_counterexample :
    isValidTimeStr "banana" = false
    ∧ loadUserCfg (StorageRead.stored "banana" "16:00")
        = ({ rest := "11:30", home := "16:00" }, false) := by
  refine ⟨by decide, by decide⟩

/-- Claim C8 as amended: a missing key or a read/parse failure falls
back to the fixed defaults (rest 11:30, home 16:00) and opens the
one-time re-entry modal; a stored field that fails the HH:MM
validation falls back to its default silently, without a re-entry
request; and for every stored value the resulting state is either the
valid stored value or the corresponding default. -/
theorem c8_fallback_amended (read : StorageRead) :
    (isValidTimeStr (loadUserCfg read).1.rest = true
      ∧ isValidTimeStr (loadUserCfg read).1.home = true)
    ∧ (read = StorageRead.missing →
        loadUserCfg read = ({ rest := "11:30", home := "16:00" }, true))
    ∧ (read = StorageRead.corrupt →
        loadUserCfg read = ({ rest := "11:30", home := "16:00" }, true))
    ∧ (∀ r h : String, read = StorageRead.stored r h →
        (((loadUserCfg read).1.rest = r ∧ isValidTimeStr r = true)
          ∨ ((loadUserCfg read).1.rest = "11:30" ∧ isValidTimeStr r = false))
        ∧ (((loadUserCfg read).1.home = h ∧ isValidTimeStr h = true)
          ∨ ((loadUserCfg read).1.home = "16:00" ∧ isValidTimeStr h = false))
        ∧ (loadUserCfg read).2 = false) := by
  refine ⟨loadUserCfg_valid read, ?_, ?_, ?_⟩
  · intro h
    subst h
    rfl
  · intro h
    subst h
    rfl
  · intro r h heq
    subst heq
    refine ⟨?_, ?_, rfl⟩
    · by_cases hr : isValidTimeStr r = true
      · refine Or.inl ⟨?_, hr⟩
        show (if isValidTimeStr r = true then r else "11:30") = r
        rw [if_pos hr]
      · refine Or.inr ⟨?_, by simpa using hr⟩
        show (if isValidTimeStr r = true then r else "11:30") = "11:30"
        rw [if_neg hr]
    · by_cases hh : isValidTimeStr h = true
      · refine Or.inl ⟨?_, hh⟩
        show (if isValidTimeStr h = true then h else "16:00") = h
        rw [if_pos hh]
      · refine Or.inr ⟨?_, by simpa using hh⟩
        show (if isValidTimeStr h = true then h else "16:00") = "16:00"
        rw [if_neg hh]

/-- Claim C9: the tick computation is a deterministic, side-effect-free
function of the configured TimeOfDay and the sampled instant — as a
state transition it ignores the previous snapshot, so two invocations
with the same inputs produce identical ClockState snapshots and the
transition is idempotent. -/
theorem c9_deterministic (cfg : TimeCfg) (now : Instant) (s1 s2 : CountdownState) :
    step cfg now s1 = step cfg now s2
    ∧ step cfg now (step cfg now s1) = step cfg now s1
    ∧ step cfg now s1 = tick cfg now :=
  ⟨rfl, rfl, rfl⟩

/-- Claim C10: formatDiff is total over all integer millisecond inputs:
the text is always a zero-padded HH:MM:SS string of natural-number
components with hours at most 23 and minutes and seconds at most 59,
the day count is a natural number, and every non-positive input clamps
to the zero display 00:00:00 with zero days. -/
theorem c10_formatDiff_total (ms : ℤ) :
    (∃ hh mm ss : ℕ, hh ≤ 23 ∧ mm ≤ 59 ∧ ss ≤ 59 ∧
      (formatDiff ms).text = pad2 hh ++ ":" ++ pad2 mm ++ ":" ++ pad2 ss ∧
      (formatDiff ms).text.length = 8)
    ∧ (ms ≤ 0 → (formatDiff ms).text = "00:00:00" ∧ (formatDiff ms).days = 0) := by
  refine ⟨formatDiff_shape ms, fun h => ?_⟩
  rw [formatDiff_nonpos ms h]
  exact ⟨rfl, rfl⟩

end Worktimer
